import Mathlib

/-!
Verification of the collection-capacity and purchase-consistency rules of the
Pokemon-card shop application.

The repository ships the React frontend; the FastAPI backend that implements
the Collection Policy Engine (capacity cap, cart ledger, ownership ledger,
purchase conversion, cascade delete) is not part of the source tree, so the
engine is modelled here from the design specification (sections 3, 4 and 7 of
the spec).  The client-side registration validation of `Register.tsx` is
embedded directly from the source.
-/

namespace PokeShop

/-- Modelled from the spec: card rarity enumeration (`Common | Rare | Legendary`). -/
inductive Rarity where
  | common
  | rare
  | legendary
  deriving Repr, DecidableEq

/-- Modelled from the spec: a catalog entry (`Card`): `id` (unique, stable),
`name`, `type`, `hp`, `attack`, `price` (a non-negative currency amount,
represented exactly as a whole number of cents), `rarity`, image reference.  The backend table is not
in the source tree; fields follow section 3 of the spec. -/
structure Card where
  id : Nat
  name : String
  pokemonType : String
  hp : Nat
  attack : String
  price : Nat
  rarity : Rarity
  imageUrl : String
  deriving Repr, DecidableEq

/-- Modelled from the spec: a `CartEntry`: `id` (unique), `user id`, `card id`,
`added at` timestamp.  Owned by the Cart Ledger, scoped to one user. -/
structure CartEntry where
  id : Nat
  userId : Nat
  cardId : Nat
  addedAt : Nat
  deriving Repr, DecidableEq

/-- Modelled from the spec: an `OwnedCard`: `id` (unique), `user id`, `card id`,
`purchased at` timestamp.  Owned by the Ownership Ledger. -/
structure OwnedCard where
  id : Nat
  userId : Nat
  cardId : Nat
  purchasedAt : Nat
  deriving Repr, DecidableEq

/-- Modelled from the spec: the error taxonomy of section 7: `NotFound`,
`CapacityExceeded`, `AlreadyOwned`, `EmptyCart`, `CardUnavailable` (naming the
offending card by its id, the catalog row being gone). -/
inductive PolicyError where
  | notFound
  | capacityExceeded
  | alreadyOwned
  | emptyCart
  | cardUnavailable (cardId : Nat)
  deriving Repr, DecidableEq

/-- Decidable equality of operation results, so that concrete runs of the
engine can be checked by evaluation. -/
instance {ε α : Type} [DecidableEq ε] [DecidableEq α] : DecidableEq (Except ε α) := fun a b =>
  match a, b with
  | .error e, .error f =>
      if h : e = f then .isTrue (by rw [h]) else .isFalse (fun hc => h (by cases hc; rfl))
  | .ok x, .ok y =>
      if h : x = y then .isTrue (by rw [h]) else .isFalse (fun hc => h (by cases hc; rfl))
  | .error _, .ok _ => .isFalse (fun hc => by cases hc)
  | .ok _, .error _ => .isFalse (fun hc => by cases hc)

/-- Modelled from the spec: the persistent state the Policy Engine mediates:
the Catalog Store, the Cart Ledger and the Ownership Ledger, plus a fresh-id
counter standing for the store's id generator. -/
structure Store where
  catalog : List Card
  cart : List CartEntry
  owned : List OwnedCard
  nextId : Nat
  deriving Repr, DecidableEq

/-- The collection capacity cap (`CAP = 3`). -/
def CAP : Nat := 3

/-- Number of `OwnedCard` rows of one user. -/
def ownedCount (s : Store) (u : Nat) : Nat :=
  s.owned.countP (fun o => o.userId == u)

/-- Number of `CartEntry` rows of one user. -/
def cartCount (s : Store) (u : Nat) : Nat :=
  s.cart.countP (fun e => e.userId == u)

/-- The user's cart entries, in insertion order. -/
def cartOf (s : Store) (u : Nat) : List CartEntry :=
  s.cart.filter (fun e => e.userId == u)

/-- Catalog lookup by card id. -/
def findCard (s : Store) (cid : Nat) : Option Card :=
  s.catalog.find? (fun c => c.id == cid)

/-- Whether the user already owns the card with the given catalog id. -/
def ownsCard (s : Store) (u cid : Nat) : Bool :=
  s.owned.any (fun o => o.userId == u && o.cardId == cid)

/-- The per-user capacity invariant of section 3 of the spec:
`count(OwnedCard for user) + count(CartEntry for user) ≤ 3` for every user. -/
def capacityInv (s : Store) : Prop :=
  ∀ u : Nat, ownedCount s u + cartCount s u ≤ CAP

/-- Modelled from the spec: `addToCart(userId, cardId)` (section 4.1).  Checks,
in the spec's listed order: `CapacityExceeded` if `ownedCount + cartCount ≥ 3`;
`AlreadyOwned` if the user already owns that exact card; `NotFound` if the card
id is not in the Catalog.  On success creates a `CartEntry` and returns its id.
A failing call leaves the store untouched. -/
def addToCart (s : Store) (u cid now : Nat) : Store × Except PolicyError Nat :=
  if ownedCount s u + cartCount s u ≥ CAP then
    (s, .error .capacityExceeded)
  else if ownsCard s u cid then
    (s, .error .alreadyOwned)
  else if (findCard s cid).isNone then
    (s, .error .notFound)
  else
    ({ s with cart := s.cart ++ [⟨s.nextId, u, cid, now⟩], nextId := s.nextId + 1 },
     .ok s.nextId)

/-- Modelled from the spec: `removeFromCart(userId, cartEntryId)` (section 4.1).
Fails with `NotFound` if the entry does not belong to that user, otherwise
deletes the entry. -/
def removeFromCart (s : Store) (u entryId : Nat) : Store × Except PolicyError Unit :=
  if s.cart.any (fun e => e.id == entryId && e.userId == u) then
    ({ s with cart := s.cart.filter (fun e => !(e.id == entryId)) }, .ok ())
  else
    (s, .error .notFound)

/-- Modelled from the spec: `clearCart(userId)` (section 4.1).  Deletes all of
the user's cart entries; idempotent, never fails. -/
def clearCart (s : Store) (u : Nat) : Store × Except PolicyError Unit :=
  ({ s with cart := s.cart.filter (fun e => !(e.userId == u)) }, .ok ())

/-- Modelled from the spec: `removeOwned(userId, ownedCardId)` (section 4.2).
Fails with `NotFound` if not owned by that user; otherwise deletes the entry,
freeing one capacity slot immediately. -/
def removeOwned (s : Store) (u ownedId : Nat) : Store × Except PolicyError Unit :=
  if s.owned.any (fun o => o.id == ownedId && o.userId == u) then
    ({ s with owned := s.owned.filter (fun o => !(o.id == ownedId)) }, .ok ())
  else
    (s, .error .notFound)

/-- Conversion of a user's cart entries into ownership rows (step 4 of
`purchase`): one `OwnedCard` per `CartEntry`, same card id, fresh ids,
`purchased_at = now`. -/
def convertEntries (nid u now : Nat) : List CartEntry → List OwnedCard
  | [] => []
  | e :: rest => ⟨nid, u, e.cardId, now⟩ :: convertEntries (nid + 1) u now rest

/-- Modelled from the spec: `purchase(userId)` (section 4.3), the only
multi-entity transactional operation.  1. loads the user's cart, failing with
`EmptyCart` if none; 2. re-validates `ownedCount + cartCount ≤ 3`, failing with
`CapacityExceeded`; 3. verifies every referenced card still exists, failing
with `CardUnavailable` and aborting the entire purchase otherwise; 4. atomically
creates one `OwnedCard` per entry and deletes all of the user's cart entries;
5. returns the new owners' card names and the sum of their prices.  Every
failure leaves ledgers exactly as they were. -/
def purchase (s : Store) (u now : Nat) :
    Store × Except PolicyError (List String × Nat) :=
  let entries := cartOf s u
  if entries.isEmpty then
    (s, .error .emptyCart)
  else if ownedCount s u + cartCount s u > CAP then
    (s, .error .capacityExceeded)
  else
    match entries.find? (fun e => (findCard s e.cardId).isNone) with
    | some e => (s, .error (.cardUnavailable e.cardId))
    | none =>
        let resolved := entries.filterMap (fun e => findCard s e.cardId)
        ({ s with
            owned := s.owned ++ convertEntries s.nextId u now entries,
            cart := s.cart.filter (fun e => !(e.userId == u)),
            nextId := s.nextId + entries.length },
         .ok (resolved.map Card.name, (resolved.map Card.price).sum))

/-- Modelled from the spec: `createCard(fields)` (section 4.4).  Admin-only
catalog insertion; the id is assigned by the store. -/
def createCard (s : Store) (c : Card) : Store × Except PolicyError Nat :=
  ({ s with catalog := s.catalog ++ [{ c with id := s.nextId }], nextId := s.nextId + 1 },
   .ok s.nextId)

/-- Modelled from the spec: the tagged patch structure for partial admin
updates (section 9's redesign of the loose partial-field payload). -/
structure CardPatch where
  name : Option String
  pokemonType : Option String
  hp : Option Nat
  attack : Option String
  price : Option Nat
  rarity : Option Rarity
  imageUrl : Option String
  deriving Repr, DecidableEq

/-- Application of a patch to a catalog row; the id is never changed. -/
def applyPatch (p : CardPatch) (c : Card) : Card :=
  { c with
      name := p.name.getD c.name,
      pokemonType := p.pokemonType.getD c.pokemonType,
      hp := p.hp.getD c.hp,
      attack := p.attack.getD c.attack,
      price := p.price.getD c.price,
      rarity := p.rarity.getD c.rarity,
      imageUrl := p.imageUrl.getD c.imageUrl }

/-- Modelled from the spec: `updateCard(id, partialFields)` (section 4.4).
Fails with `NotFound` if the card id is absent; otherwise merges the patch
into the matching catalog row.  Ledgers are never touched. -/
def updateCard (s : Store) (cid : Nat) (p : CardPatch) : Store × Except PolicyError Unit :=
  if (findCard s cid).isNone then
    (s, .error .notFound)
  else
    ({ s with catalog := s.catalog.map (fun c => if c.id == cid then applyPatch p c else c) },
     .ok ())

/-- Modelled from the spec: `deleteCard(id)` (section 4.4).  Admin-only; must
cascade: removes the catalog row and every `CartEntry` and `OwnedCard` row of
every user referencing that card id (explicit side effect, not optional). -/
def deleteCard (s : Store) (cid : Nat) : Store × Except PolicyError Unit :=
  if (findCard s cid).isNone then
    (s, .error .notFound)
  else
    ({ s with
        catalog := s.catalog.filter (fun c => !(c.id == cid)),
        cart := s.cart.filter (fun e => !(e.cardId == cid)),
        owned := s.owned.filter (fun o => !(o.cardId == cid)) },
     .ok ())

/-- One step of the system: some client or admin operation is executed against
the store and the store is replaced by the operation's resulting store
(unchanged when the operation failed). -/
inductive Step : Store → Store → Prop where
  | addToCart (s : Store) (u cid now : Nat) : Step s (addToCart s u cid now).1
  | removeFromCart (s : Store) (u entryId : Nat) : Step s (removeFromCart s u entryId).1
  | clearCart (s : Store) (u : Nat) : Step s (clearCart s u).1
  | purchase (s : Store) (u now : Nat) : Step s (purchase s u now).1
  | removeOwned (s : Store) (u ownedId : Nat) : Step s (removeOwned s u ownedId).1
  | createCard (s : Store) (c : Card) : Step s (createCard s c).1
  | updateCard (s : Store) (cid : Nat) (p : CardPatch) : Step s (updateCard s cid p).1
  | deleteCard (s : Store) (cid : Nat) : Step s (deleteCard s cid).1

/-- Reachable states: any catalog with empty ledgers is a legal initial state,
and the state space is closed under the system's operations. -/
inductive Reachable : Store → Prop where
  | init (catalog : List Card) (n : Nat) : Reachable ⟨catalog, [], [], n⟩
  | step {s s' : Store} : Reachable s → Step s s' → Reachable s'

end PokeShop

namespace PokeShop

/-! ### Frontend cart view (`Cart.tsx`) -/

/-- A cart line item as served to `Cart.tsx`: entry id plus the referenced
card's current data, resolved at read time. -/
structure CartItem where
  id : Nat
  cardId : Nat
  cardName : String
  cardPrice : Nat
  cardImage : String
  deriving Repr, DecidableEq

/-- Modelled from the spec: `listCart(userId)` (section 4.1): the ordered
sequence of the user's cart entries, each resolved against current Catalog
data (price and name at read time, not snapshotted at add time). -/
def listCart (s : Store) (u : Nat) : List CartItem :=
  (cartOf s u).filterMap (fun e =>
    (findCard s e.cardId).map (fun c => ⟨e.id, c.id, c.name, c.price, c.imageUrl⟩))

/-- The displayed cart total of `Cart.tsx`:
`cartItems.reduce((sum, item) => sum + item.card_price, 0)`. -/
def totalPrice (items : List CartItem) : Nat :=
  items.foldl (fun sum item => sum + item.cardPrice) 0

/-- Whether an operation result is the `CardUnavailable` failure. -/
def isCardUnavailable : Except PolicyError (List String × Nat) → Bool
  | .error (.cardUnavailable _) => true
  | _ => false

/-! ### Registration validation (`Register.tsx`) -/

/-- The character class `[A-Za-z]` of the JavaScript regexes in
`Register.tsx`: ASCII letters only. -/
def asciiLetter (c : Char) : Bool :=
  (65 ≤ c.toNat && c.toNat ≤ 90) || (97 ≤ c.toNat && c.toNat ≤ 122)

/-- The JavaScript regex class `\s` (WhiteSpace plus LineTerminator):
tab, line feed, vertical tab, form feed, carriage return, space, NBSP,
Ogham space mark, the U+2000 to U+200A range, line and paragraph separators,
narrow no-break space, medium mathematical space, ideographic space, BOM. -/
def jsWhitespace (c : Char) : Bool :=
  c == '\t' || c == '\n' || c.toNat == 11 || c.toNat == 12 || c == '\r' || c == ' ' ||
  c.toNat == 160 || c.toNat == 5760 || (8192 ≤ c.toNat && c.toNat ≤ 8202) ||
  c.toNat == 8232 || c.toNat == 8233 || c.toNat == 8239 || c.toNat == 8287 ||
  c.toNat == 12288 || c.toNat == 65279

/-- JavaScript line terminators, which `.` never matches: line feed, carriage
return, line separator, paragraph separator. -/
def jsLineTerminator (c : Char) : Bool :=
  c == '\n' || c == '\r' || c.toNat == 8232 || c.toNat == 8233

/-- JavaScript `String.prototype.trim`: strips leading and trailing
whitespace and line terminators. -/
def jsTrim (s : String) : String :=
  ⟨((s.data.dropWhile jsWhitespace).reverse.dropWhile jsWhitespace).reverse⟩

/-- The anchored name regex of `Register.tsx`, `^[A-Za-z\s]{3,}$`: the whole
string is at least three characters, all of them ASCII letters or whitespace. -/
def nameRegexTest (s : String) : Bool :=
  decide (3 ≤ s.data.length) && s.data.all (fun c => asciiLetter c || jsWhitespace c)

/-- The email check of `Register.tsx`: `email.endsWith("@gmail.com")`. -/
def emailEndsWithGmail (s : String) : Bool :=
  "@gmail.com".data.isSuffixOf s.data

/-- The anchored password regex of `Register.tsx`,
`^(?=.*[A-Za-z])(?=.*\d)(?=.*[^A-Za-z\d]).{8,}$`: without the `m` flag `$`
matches only at the very end and `.` matches no line terminator, so the test
succeeds exactly when the string has at least eight characters none of which
is a line terminator, and contains an ASCII letter, a digit, and a character
that is neither. -/
def passwordRegexTest (p : String) : Bool :=
  decide (8 ≤ p.data.length) &&
  p.data.all (fun c => !(jsLineTerminator c)) &&
  p.data.any asciiLetter &&
  p.data.any Char.isDigit &&
  p.data.any (fun c => !(asciiLetter c || c.isDigit))

/-- The password rule as the claim words it: at least 8 characters including
at least one letter, one digit, and one non-alphanumeric character.  Stated
from the claim's words, for comparison with `passwordRegexTest`. -/
def claimPasswordOk (p : String) : Bool :=
  decide (8 ≤ p.data.length) &&
  p.data.any asciiLetter &&
  p.data.any Char.isDigit &&
  p.data.any (fun c => !(asciiLetter c || c.isDigit))

/-- The `validateForm` function of `Register.tsx`: returns the first failing
rule's error message, or the empty string when every rule passes. -/
def validateForm (name email password : String) : String :=
  if !(nameRegexTest (jsTrim name)) then
    "Name must be at least 3 letters long and contain only alphabets"
  else if !(emailEndsWithGmail email) then
    "Email must be a valid gmail.com address"
  else if !(passwordRegexTest password) then
    "Password must be at least 8 characters and include a letter, a number, and a special character"
  else ""

/-- Observable outcome of submitting the registration form: either an error
message is rendered and no request leaves the client, or the `POST /user`
request is sent with the raw field values. -/
inductive RegisterOutcome where
  | errorShown (msg : String)
  | requestSent (name email password : String)
  deriving Repr, DecidableEq

/-- The `handleRegister` submit handler of `Register.tsx`: runs
`validateForm`; on a non-empty error it sets the error state and returns
without contacting the server, otherwise it issues the registration request. -/
def handleRegister (name email password : String) : RegisterOutcome :=
  let v := validateForm name email password
  if v == "" then RegisterOutcome.requestSent name email password
  else RegisterOutcome.errorShown v

/-- Whether the registration attempt ended with an error rendered instead of
a request. -/
def showsError : RegisterOutcome → Bool
  | .errorShown _ => true
  | .requestSent _ _ _ => false

/-! ### Concrete sample data used by witnesses and counterexamples -/

/-- A catalog row with the given id, name and price; the remaining fields are
fixed throughout the examples. -/
def mkCard (i : Nat) (nm : String) (p : Nat) : Card :=
  ⟨i, nm, "Electric", 100, "Tackle", p, Rarity.common, "img"⟩

/-- Sample store for the capacity example: user 7 owns two cards and has one
cart entry, so the cap of three is reached. -/
def store3 : Store :=
  ⟨[mkCard 1 "Pikachu" 5, mkCard 2 "Eevee" 6, mkCard 3 "Snorlax" 7, mkCard 4 "Mew" 8],
   [⟨12, 7, 3, 5⟩],
   [⟨10, 7, 1, 0⟩, ⟨11, 7, 2, 0⟩],
   13⟩

/-- Sample store for the successful-purchase example: user 1 has two cart
entries and owns nothing. -/
def storeA : Store :=
  ⟨[mkCard 1 "Pikachu" 1, mkCard 2 "Eevee" 2],
   [⟨10, 1, 1, 0⟩, ⟨11, 1, 2, 0⟩],
   [],
   12⟩

/-- The store after the successful purchase from `storeA`: both entries
converted into ownership rows, cart empty. -/
def storeA' : Store :=
  ⟨[mkCard 1 "Pikachu" 1, mkCard 2 "Eevee" 2],
   [],
   [⟨12, 1, 1, 5⟩, ⟨13, 1, 2, 5⟩],
   14⟩

/-- Sample store for the failing-purchase example: user 1 has two cart
entries but card 2 is gone from the catalog. -/
def storeB : Store :=
  ⟨[mkCard 1 "Pikachu" 1],
   [⟨10, 1, 1, 0⟩, ⟨11, 1, 2, 0⟩],
   [],
   12⟩

/-- Sample store for the spec's purchase example: user 7 owns nothing and has
three cart entries priced 4.99, 9.99 and 14.99 dollars (499, 999 and 1499
cents). -/
def store5 : Store :=
  ⟨[mkCard 1 "Bulbasaur" 499, mkCard 2 "Charmander" 999,
     mkCard 3 "Squirtle" 1499],
   [⟨10, 7, 1, 0⟩, ⟨11, 7, 2, 1⟩, ⟨12, 7, 3, 2⟩],
   [],
   13⟩

/-- The store after the spec's purchase example succeeds. -/
def store5' : Store :=
  ⟨[mkCard 1 "Bulbasaur" 499, mkCard 2 "Charmander" 999,
     mkCard 3 "Squirtle" 1499],
   [],
   [⟨13, 7, 1, 9⟩, ⟨14, 7, 2, 9⟩, ⟨15, 7, 3, 9⟩],
   16⟩

/-- Sample store for the owned-at-cap counterexample: user 1 owns three cards,
among them card 1. -/
def store6 : Store :=
  ⟨[mkCard 1 "Pikachu" 1, mkCard 2 "Eevee" 2, mkCard 3 "Snorlax" 3],
   [],
   [⟨10, 1, 1, 0⟩, ⟨11, 1, 2, 0⟩, ⟨12, 1, 3, 0⟩],
   13⟩

/-- Sample store for the cascade-delete example: card 5 sits in user 1's cart
and in user 2's collection. -/
def storeD : Store :=
  ⟨[mkCard 4 "Mew" 4, mkCard 5 "Mewtwo" 5],
   [⟨20, 1, 5, 0⟩, ⟨21, 1, 4, 1⟩],
   [⟨22, 2, 5, 0⟩],
   23⟩

/-- Initial store of the duplicate-copy scenario: one catalog card, empty
ledgers. -/
def s8a : Store := ⟨[mkCard 1 "Pikachu" 2], [], [], 2⟩

/-- After user 1 stages card 1 once. -/
def s8b : Store := (addToCart s8a 1 1 0).1

/-- After user 1 stages card 1 a second time: no rule forbids a duplicate
cart entry, the card not being owned yet. -/
def s8c : Store := (addToCart s8b 1 1 1).1

/-- After user 1 purchases the duplicate cart: the user owns two copies of
card 1 (ownership rows 4 and 5). -/
def s8d : Store := (purchase s8c 1 2).1

/-- Sample store for the single-copy re-purchase witness: user 1 owns exactly
one copy of card 1. -/
def s8w : Store := ⟨[mkCard 1 "Pikachu" 2], [], [⟨10, 1, 1, 0⟩], 11⟩

/-! ### Counting lemmas -/

lemma countP_filter_le {α : Type} (l : List α) (p q : α → Bool) :
    (l.filter q).countP p ≤ l.countP p := by
  rw [List.countP_filter]
  exact List.countP_mono_left (fun a _ h => by
    simp only [Bool.and_eq_true] at h
    exact h.1)

lemma countP_convertEntries (nid u now u' : Nat) (entries : List CartEntry) :
    (convertEntries nid u now entries).countP (fun o => o.userId == u') =
      if u = u' then entries.length else 0 := by
  induction entries generalizing nid with
  | nil => simp [convertEntries]
  | cons e rest ih =>
      simp only [convertEntries, List.countP_cons, ih, List.length_cons]
      by_cases hu : u = u' <;> simp [hu]

lemma countP_and_split {α : Type} (l : List α) (p q : α → Bool) :
    l.countP p = l.countP (fun a => p a && q a) + l.countP (fun a => p a && !(q a)) := by
  induction l with
  | nil => simp
  | cons x xs ih =>
      simp only [List.countP_cons, ih]
      cases hp : p x <;> cases hq : q x <;> simp [hp, hq] <;> omega

lemma cartCount_eq_length_cartOf (s : Store) (u : Nat) :
    cartCount s u = (cartOf s u).length := by
  unfold cartCount cartOf
  exact List.countP_eq_length_filter _ _

/-! ### Capacity-invariant preservation, one lemma per operation -/

lemma capacityInv_addToCart (s : Store) (u cid now : Nat) (h : capacityInv s) :
    capacityInv (addToCart s u cid now).1 := by
  unfold addToCart
  split
  · exact h
  · split
    · exact h
    · split
      · exact h
      · intro u'
        have hs := h u
        have hs' := h u'
        unfold ownedCount cartCount at *
        simp only [List.countP_append, List.countP_cons, List.countP_nil]
        by_cases hu : u = u'
        · subst hu
          simp only [beq_self_eq_true, if_pos]
          omega
        · have : ((⟨s.nextId, u, cid, now⟩ : CartEntry).userId == u') = false := by
            simp [beq_iff_eq]; exact hu
          simp [this]
          omega

lemma capacityInv_removeFromCart (s : Store) (u entryId : Nat) (h : capacityInv s) :
    capacityInv (removeFromCart s u entryId).1 := by
  unfold removeFromCart
  split
  · intro u'
    have hs := h u'
    unfold ownedCount cartCount at *
    simp only
    have := countP_filter_le s.cart (fun e => e.userId == u') (fun e => !(e.id == entryId))
    omega
  · exact h

lemma capacityInv_clearCart (s : Store) (u : Nat) (h : capacityInv s) :
    capacityInv (clearCart s u).1 := by
  unfold clearCart
  intro u'
  have hs := h u'
  unfold ownedCount cartCount at *
  simp only
  have := countP_filter_le s.cart (fun e => e.userId == u') (fun e => !(e.userId == u))
  omega

lemma capacityInv_removeOwned (s : Store) (u ownedId : Nat) (h : capacityInv s) :
    capacityInv (removeOwned s u ownedId).1 := by
  unfold removeOwned
  split
  · intro u'
    have hs := h u'
    unfold ownedCount cartCount at *
    simp only
    have := countP_filter_le s.owned (fun o => o.userId == u') (fun o => !(o.id == ownedId))
    omega
  · exact h

lemma capacityInv_purchase (s : Store) (u now : Nat) (h : capacityInv s) :
    capacityInv (purchase s u now).1 := by
  simp only [purchase]
  split
  · exact h
  · split
    · exact h
    · split
      · exact h
      · rename_i hempty hcap e heq
        intro u'
        have hs := h u
        have hs' := h u'
        unfold ownedCount cartCount at *
        simp only [List.countP_append, countP_convertEntries]
        by_cases hu : u = u'
        · subst hu
          have hzero : (s.cart.filter (fun e => !(e.userId == u))).countP
              (fun e => e.userId == u) = 0 := by
            rw [List.countP_filter, List.countP_eq_zero]
            intro a _
            simp
          have hlen : (cartOf s u).length = s.cart.countP (fun e => e.userId == u) := by
            rw [← cartCount_eq_length_cartOf]; rfl
          simp only [if_pos rfl, eq_self_iff_true, if_true, hzero, hlen]
          omega
        · have hfil := countP_filter_le s.cart (fun e => e.userId == u')
            (fun e => !(e.userId == u))
          simp only [if_neg hu]
          omega

lemma capacityInv_createCard (s : Store) (c : Card) (h : capacityInv s) :
    capacityInv (createCard s c).1 := by
  intro u'
  exact h u'

lemma capacityInv_updateCard (s : Store) (cid : Nat) (p : CardPatch) (h : capacityInv s) :
    capacityInv (updateCard s cid p).1 := by
  unfold updateCard
  split
  · exact h
  · intro u'
    exact h u'

lemma capacityInv_deleteCard (s : Store) (cid : Nat) (h : capacityInv s) :
    capacityInv (deleteCard s cid).1 := by
  unfold deleteCard
  split
  · exact h
  · intro u'
    have hs := h u'
    unfold ownedCount cartCount at *
    simp only
    have h1 := countP_filter_le s.cart (fun e => e.userId == u') (fun e => !(e.cardId == cid))
    have h2 := countP_filter_le s.owned (fun o => o.userId == u') (fun o => !(o.cardId == cid))
    omega

lemma capacityInv_step {s s' : Store} (h : capacityInv s) (hs : Step s s') :
    capacityInv s' := by
  cases hs with
  | addToCart u cid now => exact capacityInv_addToCart s u cid now h
  | removeFromCart u entryId => exact capacityInv_removeFromCart s u entryId h
  | clearCart u => exact capacityInv_clearCart s u h
  | purchase u now => exact capacityInv_purchase s u now h
  | removeOwned u ownedId => exact capacityInv_removeOwned s u ownedId h
  | createCard c => exact capacityInv_createCard s c h
  | updateCard cid p => exact capacityInv_updateCard s cid p h
  | deleteCard cid => exact capacityInv_deleteCard s cid h

lemma capacityInv_reachable {s : Store} (h : Reachable s) : capacityInv s := by
  induction h with
  | init catalog n =>
      intro u
      unfold ownedCount cartCount CAP
      simp
  | step _ hstep ih => exact capacityInv_step ih hstep

end PokeShop

namespace PokeShop

/-! ### Claim C1 -/

/-- C1: for every user, at every reachable state, the number of owned cards
plus the number of cart entries for that user is at most 3, and every
operation of the system (addToCart, removeFromCart, clearCart, purchase,
removeOwned, deleteCard, as well as the admin catalog mutations createCard
and updateCard) preserves this invariant. -/
theorem capacity_cap_invariant :
    (∀ s : Store, Reachable s → capacityInv s) ∧
    (∀ s s' : Store, capacityInv s → Step s s' → capacityInv s') :=
  ⟨fun _ h => capacityInv_reachable h, fun _ _ h hs => capacityInv_step h hs⟩

/-- Witness for C1: the invariant instantiated for user 1 at the reachable
state obtained by staging card 1 twice and purchasing. -/
theorem capacity_cap_invariant_witness :
    ownedCount s8d 1 + cartCount s8d 1 ≤ CAP :=
  capacity_cap_invariant.1 s8d
    (Reachable.step (Reachable.step (Reachable.step (Reachable.init [mkCard 1 "Pikachu" 2] 2)
      (Step.addToCart s8a 1 1 0)) (Step.addToCart s8b 1 1 1)) (Step.purchase s8c 1 2)) 1

/-! ### Claim C3 -/

/-- C3: for every user whose owned count plus cart count equals 3, every
addToCart call fails with CapacityExceeded and leaves the store — in
particular that user's cart — exactly as it was. -/
theorem addToCart_at_cap_fails (s : Store) (u cid now : Nat)
    (h : ownedCount s u + cartCount s u = CAP) :
    addToCart s u cid now = (s, Except.error PolicyError.capacityExceeded) := by
  unfold addToCart
  rw [if_pos h.ge]

/-- Witness for C3: the spec's example — a user with 2 owned cards and 1 cart
entry adding a 4th distinct card. -/
theorem addToCart_at_cap_fails_witness :
    addToCart store3 7 4 9 = (store3, Except.error PolicyError.capacityExceeded) :=
  addToCart_at_cap_fails store3 7 4 9 (by decide)

/-! ### Claim C4 -/

/-- C4: after deleteCard(id) succeeds, no cart entry and no ownership row of
any user references the deleted card id (cascade delete). -/
theorem deleteCard_cascades (s : Store) (cid : Nat) (s' : Store)
    (h : deleteCard s cid = (s', Except.ok ())) :
    s'.cart.all (fun e => !(e.cardId == cid)) = true ∧
    s'.owned.all (fun o => !(o.cardId == cid)) = true := by
  unfold deleteCard at h
  split at h
  · simp at h
  · obtain ⟨h1, -⟩ := Prod.mk.inj h
    subst h1
    constructor
    · simp [List.all_eq_true, List.mem_filter]
    · simp [List.all_eq_true, List.mem_filter]

/-- Witness for C4: card 5 is deleted while sitting in user 1's cart and in
user 2's collection; afterwards neither ledger references card 5. -/
theorem deleteCard_cascades_witness :
    (deleteCard storeD 5).1.cart.all (fun e => !(e.cardId == 5)) = true ∧
    (deleteCard storeD 5).1.owned.all (fun o => !(o.cardId == 5)) = true :=
  deleteCard_cascades storeD 5 (deleteCard storeD 5).1 (by decide)

/-! ### Claim C7 -/

/-- C7: purchase called by a user whose cart is empty fails with EmptyCart and
leaves the store — cart and ownership ledgers included — unchanged. -/
theorem purchase_empty_cart_fails (s : Store) (u now : Nat) (h : cartOf s u = []) :
    purchase s u now = (s, Except.error PolicyError.emptyCart) := by
  simp [purchase, h]

/-- Witness for C7: a user with an empty cart attempting to purchase. -/
theorem purchase_empty_cart_fails_witness :
    purchase ⟨[mkCard 1 "Pikachu" 2], [], [], 2⟩ 1 0 =
      (⟨[mkCard 1 "Pikachu" 2], [], [], 2⟩, Except.error PolicyError.emptyCart) :=
  purchase_empty_cart_fails ⟨[mkCard 1 "Pikachu" 2], [], [], 2⟩ 1 0 (by decide)

/-! ### Claim C6 -/

/-- C6 counterexample: user 1 owns card 1 and is at the capacity cap; the
capacity check of section 4.1 runs first, so addToCart for the owned card
fails with CapacityExceeded, not with AlreadyOwned as the claim demands. -/
theorem addToCart_owned_counterexample :
    ownsCard store6 1 1 = true ∧
    addToCart store6 1 1 9 = (store6, Except.error PolicyError.capacityExceeded) ∧
    (addToCart store6 1 1 9).2 ≠ Except.error PolicyError.alreadyOwned :=
  ⟨by decide, by decide, by decide⟩

/-- C6 amended: addToCart for a card the user already owns never succeeds and
never re-enters the cart (the store is unchanged and an error is returned);
whenever the user is below the capacity cap the error is AlreadyOwned. -/
theorem addToCart_owned_fails (s : Store) (u cid now : Nat)
    (h : ownsCard s u cid = true) :
    (addToCart s u cid now).1 = s ∧ (addToCart s u cid now).2.isOk = false ∧
    (ownedCount s u + cartCount s u < CAP →
      addToCart s u cid now = (s, Except.error PolicyError.alreadyOwned)) := by
  unfold addToCart
  by_cases hcap : ownedCount s u + cartCount s u ≥ CAP
  · rw [if_pos hcap]
    exact ⟨rfl, rfl, fun hlt => absurd hcap (by omega)⟩
  · rw [if_neg hcap, if_pos h]
    exact ⟨rfl, rfl, fun _ => rfl⟩

/-- Witness for C6's amended theorem: a user owning exactly one copy of card 1
and far below the cap gets AlreadyOwned. -/
theorem addToCart_owned_fails_witness :
    addToCart s8w 1 1 3 = (s8w, Except.error PolicyError.alreadyOwned) :=
  (addToCart_owned_fails s8w 1 1 3 (by decide)).2.2 (by decide)

end PokeShop

namespace PokeShop

/-! ### Lemmas about purchase conversion and cart totals -/

lemma ownsCard_of_mem_convert (u now : Nat) (l : List CartEntry) (e : CartEntry)
    (he : e ∈ l) :
    ∀ nid, (convertEntries nid u now l).any
      (fun o => o.userId == u && o.cardId == e.cardId) = true := by
  induction he with
  | head as =>
      intro nid
      simp [convertEntries]
  | tail b hmem ih =>
      intro nid
      simp only [convertEntries, List.any_cons, Bool.or_eq_true]
      exact Or.inr (ih (nid + 1))

lemma totalPrice_eq_sum (items : List CartItem) :
    totalPrice items = (items.map CartItem.cardPrice).sum := by
  have h : ∀ (l : List CartItem) (a : Nat),
      l.foldl (fun sum i => sum + i.cardPrice) a = a + (l.map CartItem.cardPrice).sum := by
    intro l
    induction l with
    | nil => intro a; simp
    | cons x xs ih =>
        intro a
        simp only [List.foldl_cons, ih, List.map_cons, List.sum_cons]
        omega
  simpa [totalPrice] using h items 0

lemma map_cardPrice_listCart (s : Store) (u : Nat) :
    (listCart s u).map CartItem.cardPrice =
      ((cartOf s u).filterMap (fun e => findCard s e.cardId)).map Card.price := by
  simp only [listCart, List.map_filterMap]
  have hfun : (fun e : CartEntry =>
      ((findCard s e.cardId).map
        (fun c => (⟨e.id, c.id, c.name, c.price, c.imageUrl⟩ : CartItem))).map
          CartItem.cardPrice) =
      fun e : CartEntry => (findCard s e.cardId).map Card.price := by
    funext e
    cases findCard s e.cardId <;> rfl
  rw [hfun]

/-! ### Claim C2 -/

/-- C2: purchase is all-or-nothing for a single user's ledgers.  On success
every staged card becomes owned and the user's cart is empty in the resulting
state; if any staged card no longer exists in the catalog, purchase fails
with CardUnavailable and the store — in particular every cart entry — is
exactly as it was before the call.  The capacity hypothesis holds in every
reachable state (claim C1). -/
theorem purchase_atomic (s : Store) (u now : Nat)
    (hcap : ownedCount s u + cartCount s u ≤ CAP) :
    (∀ (s' : Store) (r : List String × Nat), purchase s u now = (s', Except.ok r) →
        cartOf s' u = [] ∧
        (cartOf s u).all (fun e => ownsCard s' u e.cardId) = true) ∧
    ((cartOf s u).any (fun e => (findCard s e.cardId).isNone) = true →
        (purchase s u now).1 = s ∧ isCardUnavailable (purchase s u now).2 = true) := by
  constructor
  · intro s' r h
    simp only [purchase] at h
    split at h
    · exact absurd h (by simp)
    · split at h
      · exact absurd h (by simp)
      · split at h
        · exact absurd h (by simp)
        · obtain ⟨hs', -⟩ := Prod.mk.inj h
          subst hs'
          constructor
          · refine List.filter_eq_nil_iff.mpr ?_
            intro e hme
            have h2 := (List.mem_filter.mp hme).2
            simp at h2 ⊢
            exact h2
          · rw [List.all_eq_true]
            intro e hme
            simp only [ownsCard, List.any_append, Bool.or_eq_true]
            exact Or.inr (ownsCard_of_mem_convert u now (cartOf s u) e hme s.nextId)
  · intro hany
    obtain ⟨e, hme, hpe⟩ := List.any_eq_true.mp hany
    have hne : ¬((cartOf s u).isEmpty = true) := by
      cases hc : cartOf s u with
      | nil => rw [hc] at hme; cases hme
      | cons a l => simp [hc]
    have hcap' : ¬(ownedCount s u + cartCount s u > CAP) := by omega
    cases hy : (cartOf s u).find? (fun e => (findCard s e.cardId).isNone) with
    | none => exact absurd hpe (List.find?_eq_none.mp hy e hme)
    | some y =>
        have hP : purchase s u now = (s, Except.error (PolicyError.cardUnavailable y.cardId)) := by
          simp only [purchase]
          rw [if_neg hne, if_neg hcap', hy]
        rw [hP]
        exact ⟨rfl, rfl⟩

/-- Witness for C2: the successful conversion on `storeA` and the untouched
round trip on `storeB`, whose staged card 2 is gone from the catalog. -/
theorem purchase_atomic_witness :
    (cartOf storeA' 1 = [] ∧
      (cartOf storeA 1).all (fun e => ownsCard storeA' 1 e.cardId) = true) ∧
    ((purchase storeB 1 5).1 = storeB ∧ isCardUnavailable (purchase storeB 1 5).2 = true) :=
  ⟨(purchase_atomic storeA 1 5 (by decide)).1 storeA' (["Pikachu", "Eevee"], 3) (by decide),
   (purchase_atomic storeB 1 5 (by decide)).2 (by decide)⟩

end PokeShop

namespace PokeShop

/-! ### Claim C5 -/

/-- C5: a successful purchase returns the names of the newly owned cards and
the sum of their prices, the same sum the cart page displays (the fold of
`card_price` over the listed items); in particular the spec's example — a
user with no owned cards and three cart entries priced 499, 999 and 1499
cents — yields three ownership rows, an empty cart and a returned total of
2997 cents ($29.97). -/
theorem purchase_result_names_total :
    (∀ (s : Store) (u now : Nat) (s' : Store) (names : List String) (total : Nat),
        purchase s u now = (s', Except.ok (names, total)) →
        names = ((cartOf s u).filterMap (fun e => findCard s e.cardId)).map Card.name ∧
        total = totalPrice (listCart s u)) ∧
    (purchase store5 7 9 = (store5', Except.ok (["Bulbasaur", "Charmander", "Squirtle"], 2997)) ∧
     ownedCount store5' 7 = 3 ∧ cartOf store5' 7 = [] ∧
     totalPrice (listCart store5 7) = 2997) := by
  constructor
  · intro s u now s' names total h
    simp only [purchase] at h
    split at h
    · exact absurd h (by simp)
    · split at h
      · exact absurd h (by simp)
      · split at h
        · exact absurd h (by simp)
        · obtain ⟨-, h2⟩ := Prod.mk.inj h
          have h3 := Except.ok.inj h2
          obtain ⟨hnames, htotal⟩ := Prod.mk.inj h3
          refine ⟨hnames.symm, ?_⟩
          rw [← htotal, totalPrice_eq_sum, map_cardPrice_listCart]
  · refine ⟨by decide, by decide, by decide, by decide⟩

/-- Witness for C5: the general clause instantiated on the spec's example
store. -/
theorem purchase_result_names_total_witness :
    (["Bulbasaur", "Charmander", "Squirtle"] : List String) =
      ((cartOf store5 7).filterMap (fun e => findCard store5 e.cardId)).map Card.name ∧
    (2997 : Nat) = totalPrice (listCart store5 7) :=
  purchase_result_names_total.1 store5 7 9 store5'
    ["Bulbasaur", "Charmander", "Squirtle"] 2997 (by decide)

end PokeShop

namespace PokeShop

/-! ### Claim C8 -/

/-- C8 counterexample: staging the same card twice (no rule of section 4.1 or
error of section 7 forbids a duplicate cart entry for a not-yet-owned card)
and purchasing leaves the user owning two copies of card 1, a reachable
state; removing one copy (ownership row 4) succeeds, yet addToCart for the
same card id then fails with AlreadyOwned because of the second copy. -/
theorem removeOwned_readd_counterexample :
    Reachable s8d ∧
    (removeOwned s8d 1 4).2 = Except.ok () ∧
    (addToCart (removeOwned s8d 1 4).1 1 1 3).2 = Except.error PolicyError.alreadyOwned :=
  ⟨Reachable.step (Reachable.step (Reachable.step (Reachable.init [mkCard 1 "Pikachu" 2] 2)
      (Step.addToCart s8a 1 1 0)) (Step.addToCart s8b 1 1 1)) (Step.purchase s8c 1 2),
   by decide, by decide⟩

/-- C8 amended: for every user owning a card through exactly one ownership
row, with the card still in the catalog and the capacity invariant holding,
removeOwned for that row succeeds and a subsequent addToCart for the same
card id succeeds (re-purchase is allowed, slots are reusable). -/
theorem removeOwned_then_addToCart (s : Store) (u c now : Nat) (e : OwnedCard)
    (huniq : s.owned.filter (fun o => o.userId == u && o.cardId == c) = [e])
    (hcard : (findCard s c).isSome = true)
    (hcap : ownedCount s u + cartCount s u ≤ CAP) :
    (removeOwned s u e.id).2 = Except.ok () ∧
    ((addToCart (removeOwned s u e.id).1 u c now).2).isOk = true := by
  have heF : e ∈ s.owned.filter (fun o => o.userId == u && o.cardId == c) := by
    rw [huniq]
    exact List.mem_singleton_self e
  obtain ⟨heMem, hePred⟩ := List.mem_filter.mp heF
  have heu : e.userId = u := by
    simp only [Bool.and_eq_true, beq_iff_eq] at hePred
    exact hePred.1
  have hany : s.owned.any (fun o => o.id == e.id && o.userId == u) = true :=
    List.any_eq_true.mpr ⟨e, heMem, by simp [heu]⟩
  have h1 : removeOwned s u e.id =
      ({ s with owned := s.owned.filter (fun o => !(o.id == e.id)) }, Except.ok ()) := by
    unfold removeOwned
    rw [if_pos hany]
  refine ⟨by rw [h1], ?_⟩
  rw [h1]
  have hOwnLt : ownedCount { s with owned := s.owned.filter (fun o => !(o.id == e.id)) } u + 1 ≤
      ownedCount s u := by
    unfold ownedCount
    simp only [List.countP_filter]
    have hsplit := countP_and_split s.owned (fun o => o.userId == u) (fun o => o.id == e.id)
    have hpos : 0 < s.owned.countP (fun o => (o.userId == u) && (o.id == e.id)) :=
      List.countP_pos_iff.mpr ⟨e, heMem, by simp [heu]⟩
    omega
  have hcart1 : cartCount { s with owned := s.owned.filter (fun o => !(o.id == e.id)) } u =
      cartCount s u := rfl
  have hcapLt : ¬(ownedCount { s with owned := s.owned.filter (fun o => !(o.id == e.id)) } u +
      cartCount { s with owned := s.owned.filter (fun o => !(o.id == e.id)) } u ≥ CAP) := by
    omega
  have howns : ownsCard { s with owned := s.owned.filter (fun o => !(o.id == e.id)) } u c
      = false := by
    unfold ownsCard
    simp only
    refine List.any_eq_false.mpr ?_
    intro o ho hp
    obtain ⟨hoMem, hoId⟩ := List.mem_filter.mp ho
    have hoInFilter : o ∈ s.owned.filter (fun o => o.userId == u && o.cardId == c) :=
      List.mem_filter.mpr ⟨hoMem, hp⟩
    rw [huniq] at hoInFilter
    have hoe : o = e := List.mem_singleton.mp hoInFilter
    subst hoe
    simp at hoId
  have hfc : (findCard { s with owned := s.owned.filter (fun o => !(o.id == e.id)) } c).isNone
      = false := by
    have hsame : findCard { s with owned := s.owned.filter (fun o => !(o.id == e.id)) } c =
        findCard s c := rfl
    rw [hsame]
    cases hopt : findCard s c with
    | none => rw [hopt] at hcard; simp at hcard
    | some v => rfl
  unfold addToCart
  rw [if_neg hcapLt, if_neg (by simp [howns]), if_neg (by simp [hfc])]
  rfl

/-- Witness for C8's amended theorem: user 1 owns a single copy of card 1;
after removal the re-add succeeds. -/
theorem removeOwned_then_addToCart_witness :
    (removeOwned s8w 1 10).2 = Except.ok () ∧
    ((addToCart (removeOwned s8w 1 10).1 1 1 3).2).isOk = true :=
  removeOwned_then_addToCart s8w 1 1 3 ⟨10, 1, 1, 0⟩ (by decide) (by decide) (by decide)

end PokeShop

namespace PokeShop

/-! ### Claim C10 -/

lemma validateForm_eq_empty_iff (name email password : String) :
    validateForm name email password = "" ↔
      (nameRegexTest (jsTrim name) = true ∧ emailEndsWithGmail email = true ∧
       passwordRegexTest password = true) := by
  unfold validateForm
  cases hn : nameRegexTest (jsTrim name) <;> cases hm : emailEndsWithGmail email <;>
    cases hp : passwordRegexTest password <;> simp [hn, hm, hp]

lemma claimPasswordOk_of_regex (password : String)
    (h : passwordRegexTest password = true) : claimPasswordOk password = true := by
  unfold passwordRegexTest at h
  unfold claimPasswordOk
  simp only [Bool.and_eq_true] at h ⊢
  exact ⟨⟨⟨h.1.1.1.1, h.1.1.2⟩, h.1.2⟩, h.2⟩

/-- C10: registration submits to the server only when the client-side rules
hold — the trimmed name matches the anchored letters-and-whitespace regex with
at least three characters, the email ends with "@gmail.com", and the password
has at least eight characters including a letter, a digit and a
non-alphanumeric character; and for any input violating one of these rules no
request is sent: an error message is rendered instead. -/
theorem register_validation (name email password : String) :
    (handleRegister name email password =
        RegisterOutcome.requestSent name email password →
      nameRegexTest (jsTrim name) = true ∧ emailEndsWithGmail email = true ∧
      claimPasswordOk password = true) ∧
    ((nameRegexTest (jsTrim name) = false ∨ emailEndsWithGmail email = false ∨
        claimPasswordOk password = false) →
      showsError (handleRegister name email password) = true) := by
  have hiff := validateForm_eq_empty_iff name email password
  constructor
  · intro hreq
    simp only [handleRegister] at hreq
    split at hreq
    · rename_i hv
      obtain ⟨hn, hm, hp⟩ := hiff.mp (by simpa using hv)
      exact ⟨hn, hm, claimPasswordOk_of_regex password hp⟩
    · exact absurd hreq (by simp)
  · intro hcl
    have hvne : validateForm name email password ≠ "" := by
      intro hveq
      obtain ⟨hn, hm, hp⟩ := hiff.mp hveq
      rcases hcl with h | h | h
      · simp [h] at hn
      · simp [h] at hm
      · have hc := claimPasswordOk_of_regex password hp
        simp [h] at hc
    simp only [handleRegister]
    split
    · rename_i hv
      exact absurd (by simpa using hv) hvne
    · rfl

/-- Witness for C10: a valid registration is submitted with the stated rules
holding, and an invalid one (name too short) only renders an error. -/
theorem register_validation_witness :
    (nameRegexTest (jsTrim "Ash Ketchum") = true ∧
     emailEndsWithGmail "ash@gmail.com" = true ∧
     claimPasswordOk "pikachu1!" = true) ∧
    showsError (handleRegister "Ab" "x@gmail.com" "longpass1!") = true :=
  ⟨(register_validation "Ash Ketchum" "ash@gmail.com" "pikachu1!").1 (by decide),
   (register_validation "Ab" "x@gmail.com" "longpass1!").2 (Or.inl (by decide))⟩

end PokeShop
